import Mathlib

/-!
Verification of the webscore rubric-driven scoring engine.

Shallow embedding of the scoring pipeline of the repository:
* src/src/types/scorecard.ts        — data model (Check, Category, Rubric, results)
* src/src/lib/analyze/rubric.ts     — createCheckResult, computeCategoryScore,
                                      computeTotalScore (both the phase-gated and the
                                      phase-free variant), PHASES, isCheckEnabled
* src/src/lib/parse/dom.ts          — JSON-LD collection loop of parseHTML, the
                                      address/geo loop of extractFacts
* src/unnamed/part_000              — check evaluators F3, F5, C3 and
                                      calculateTextSimilarity

Numbers are modelled as rationals (JavaScript numbers; all quantities involved are
small integer or half-integer point values and ratios of small naturals, where IEEE
double arithmetic is exact for the operations performed, apart from the generic
float-vs-rational caveat on threshold comparisons). JavaScript functions that throw
are modelled as Option-returning functions. The process-global rubric configuration
object is passed explicitly as a parameter.
-/

/-- Status of one check, from src/src/types/scorecard.ts
(CheckStatus = pass | partial | fail | na). The constructor semi stands for the
source status named "partial", which is a reserved word in Lean. -/
inductive CheckStatus where
  | pass
  | semi
  | fail
  | na
deriving DecidableEq, Repr

/-- Check rubric entry, from src/src/types/scorecard.ts (interface Check). -/
structure Check where
  id : String
  label : String
  weight : ℚ
deriving DecidableEq, Repr

/-- Category of checks, from src/src/types/scorecard.ts (interface Category). -/
structure Category where
  id : String
  label : String
  nominal_weight : ℚ
  checks : List Check
deriving DecidableEq, Repr

/-- Rubric configuration, from src/src/types/scorecard.ts (interface Rubric). -/
structure Rubric where
  version : String
  allow_na : List String
  categories : List Category
deriving DecidableEq, Repr

/-- Result of one check, from src/src/types/scorecard.ts (interface CheckResult).
The untyped optional details record is omitted; no claim concerns it. -/
structure CheckResult where
  id : String
  status : CheckStatus
  score : ℚ
  evidence : List String
deriving DecidableEq, Repr

/-- Result of one category, from src/src/types/scorecard.ts
(interface CategoryResult). -/
structure CategoryResult where
  id : String
  label : String
  checks : List CheckResult
  score : ℚ
  max_score : ℚ
  percentage : ℚ
deriving DecidableEq, Repr

/-- JavaScript Math.round: round half toward positive infinity, which is exactly
Mathlib round on rationals. -/
def jsRound (q : ℚ) : ℤ := round q

/-- Rounding to two decimal places, as Math.round(x * 100) / 100 in
computeCategoryScore (src/src/lib/analyze/rubric.ts). -/
def roundTo2 (q : ℚ) : ℚ := ((jsRound (q * 100) : ℤ) : ℚ) / 100

/-- Lookup of the check with a given id, as in createCheckResult
(src/src/lib/analyze/rubric.ts lines 119-122 and 225-228): first the first category
whose checks contain the id, then the first check with the id inside it. -/
def lookupCheck (r : Rubric) (id : String) : Option Check :=
  (r.categories.find? (fun c => c.checks.any (fun ch => ch.id == id))).bind
    (fun c => c.checks.find? (fun ch => ch.id == id))

/-- createCheckResult from src/src/lib/analyze/rubric.ts (lines 113-151, identical
at lines 219-257): derives the score from the status and the configured weight;
throwing on an unknown id is modelled by returning none. -/
def createCheckResult (r : Rubric) (id : String) (status : CheckStatus)
    (evidence : List String) : Option CheckResult :=
  match lookupCheck r id with
  | none => none
  | some check =>
    let score : ℚ :=
      match status with
      | .pass => check.weight
      | .semi => check.weight * (1 / 2)
      | .fail => 0
      | .na => 0
    some { id := id, status := status, score := score, evidence := evidence }

/-- computeCategoryScore from src/src/lib/analyze/rubric.ts, phase-free variant
(lines 166-198): an unknown category id (a throw in the source) is modelled by
returning none. -/
def computeCategoryScore (r : Rubric) (categoryId : String)
    (checkResults : List CheckResult) : Option CategoryResult :=
  match r.categories.find? (fun c => c.id == categoryId) with
  | none => none
  | some category =>
    let maxScore : ℚ := (category.checks.map (fun ch => ch.weight)).sum
    let actualScore : ℚ :=
      ((checkResults.filter
          (fun res => category.checks.any (fun ch => ch.id == res.id))).map
        (fun res => res.score)).sum
    let percentage : ℚ := if maxScore > 0 then actualScore / maxScore * 100 else 0
    some { id := categoryId
           label := category.label
           checks := checkResults.filter
             (fun res => category.checks.any (fun ch => ch.id == res.id))
           score := actualScore
           max_score := maxScore
           percentage := roundTo2 percentage }

/-- computeTotalScore from src/src/lib/analyze/rubric.ts, phase-free variant
(lines 201-216). -/
def computeTotalScore (r : Rubric) (categoryResults : List CategoryResult) : ℤ :=
  let totalPossiblePoints : ℚ :=
    (r.categories.map (fun c => (c.checks.map (fun ch => ch.weight)).sum)).sum
  let actualPoints : ℚ := (categoryResults.map (fun res => res.score)).sum
  let normalizedScore : ℚ :=
    if totalPossiblePoints > 0 then actualPoints / totalPossiblePoints * 100 else 0
  jsRound normalizedScore

/-- Rubric instance for concrete test inputs. Modelled from the spec: the file
src/config/rubric.v2.0.json imported by rubric.ts is not present in the sources;
ids and weights follow the detailed check-weight table of the repository README. -/
def rubricV2 : Rubric :=
  { version := "2.0.0"
    allow_na := ["A2", "A5"]
    categories :=
      [ { id := "fetchability", label := "Fetchability", nominal_weight := 20
          checks :=
            [ { id := "F1", label := "HTTP 200", weight := 6 }
            , { id := "F2", label := "No noindex meta", weight := 4 }
            , { id := "F3", label := "robots.txt not blocking", weight := 4 }
            , { id := "F4", label := "Canonical exists and absolute", weight := 3 }
            , { id := "F5", label := "JS-render parity", weight := 3 } ] }
      , { id := "metadata", label := "Metadata", nominal_weight := 20
          checks :=
            [ { id := "M1", label := "Title exists", weight := 3 }
            , { id := "M2", label := "Title optimized", weight := 3 }
            , { id := "M3", label := "Meta description exists", weight := 3 }
            , { id := "M4", label := "Description brand and locality", weight := 4 }
            , { id := "M5", label := "Open Graph basics", weight := 4 }
            , { id := "M6", label := "Canonical host matches", weight := 3 } ] }
      , { id := "schema", label := "Schema", nominal_weight := 25
          checks :=
            [ { id := "S1", label := "Valid JSON-LD parses", weight := 5 }
            , { id := "S2", label := "LocalBusiness essentials", weight := 10 }
            , { id := "S3", label := "Org WebSite WebPage coherence", weight := 7 }
            , { id := "S4", label := "Meaningful dateModified", weight := 3 } ] }
      , { id := "semantics", label := "Semantic Content", nominal_weight := 15
          checks :=
            [ { id := "C1", label := "H1 exists and unique", weight := 4 }
            , { id := "C2", label := "H1 contains locality", weight := 4 }
            , { id := "C3", label := "H2-H6 structure", weight := 3 }
            , { id := "C4", label := "Main content extraction", weight := 4 } ] }
      , { id := "freshness", label := "Freshness", nominal_weight := 10
          checks :=
            [ { id := "R1", label := "Sitemap recency", weight := 10 } ] }
      , { id := "brand", label := "Brand Clarity", nominal_weight := 13
          checks :=
            [ { id := "N1", label := "Brand consistent", weight := 4 }
            , { id := "N2", label := "sameAs profiles", weight := 3 }
            , { id := "N3", label := "Logo in schema and visible", weight := 3 }
            , { id := "N4", label := "Alt text brand info", weight := 3 } ] }
      , { id := "accessibility", label := "Accessibility", nominal_weight := 13
          checks :=
            [ { id := "A1", label := "Images have alt text", weight := 3 }
            , { id := "A2", label := "Form labels", weight := 2 }
            , { id := "A3", label := "Readability", weight := 2 }
            , { id := "A4", label := "Navigation structure", weight := 2 }
            , { id := "A5", label := "Video accessibility", weight := 3 } ] } ] }

/-- C1: for every check id present in the rubric, createCheckResult assigns
score = weight for pass, weight / 2 for the intermediate status, and 0 for fail
and na; consequently the scores are monotone with score(fail) = 0, and the
intermediate score is exactly weight / 2 whenever the weight is positive. -/
theorem createCheckResult_scores (r : Rubric) (id : String) (ev : List String)
    (check : Check) (h : lookupCheck r id = some check) :
    ((createCheckResult r id .pass ev).map (fun res => res.score)
        = some check.weight)
    ∧ ((createCheckResult r id .semi ev).map (fun res => res.score)
        = some (check.weight / 2))
    ∧ ((createCheckResult r id .fail ev).map (fun res => res.score) = some 0)
    ∧ ((createCheckResult r id .na ev).map (fun res => res.score) = some 0)
    ∧ (0 < check.weight →
        check.weight / 2 ≤ check.weight ∧ (0:ℚ) ≤ check.weight / 2) := by
  refine ⟨?_, ?_, ?_, ?_, ?_⟩
  · simp [createCheckResult, h]
  · simp [createCheckResult, h]; ring
  · simp [createCheckResult, h]
  · simp [createCheckResult, h]
  · intro hw
    constructor <;> linarith

/-- Witness for C1 at the concrete rubric and check F1 (weight 6). -/
theorem createCheckResult_scores_witness :
    lookupCheck rubricV2 "F1"
        = some { id := "F1", label := "HTTP 200", weight := 6 }
    ∧ ((createCheckResult rubricV2 "F1" .pass []).map (fun res => res.score)
        = some 6) := by
  refine ⟨by decide, ?_⟩
  have h := createCheckResult_scores rubricV2 "F1" []
    { id := "F1", label := "HTTP 200", weight := 6 } (by decide)
  exact h.1

/-- Total possible points of a rubric, as computed inside computeTotalScore
(src/src/lib/analyze/rubric.ts lines 205-207): the sum of every check weight of
every category. -/
def rubricTotalWeight (r : Rubric) : ℚ :=
  (r.categories.map (fun c => (c.checks.map (fun ch => ch.weight)).sum)).sum

/-- C2: evaluation at the failing input. The check A2 is in the rubric allow_na
set and its na result scores 0 points, but its weight 2 is still included in the
accessibility max_score of 12 = 3 + 2 + 2 + 2 + 3 computed by
computeCategoryScore, although the source comment (rubric.ts line 175) and the
CategoryResult field documentation (scorecard.ts line 38) both say the maximum
excludes NA, which would give 10. -/
theorem computeCategoryScore_na_bug :
    createCheckResult rubricV2 "A2" CheckStatus.na ["no forms on page"]
      = some { id := "A2", status := CheckStatus.na, score := 0,
               evidence := ["no forms on page"] }
    ∧ lookupCheck rubricV2 "A2"
      = some { id := "A2", label := "Form labels", weight := 2 }
    ∧ (computeCategoryScore rubricV2 "accessibility"
        [{ id := "A2", status := CheckStatus.na, score := 0,
           evidence := ["no forms on page"] }]).map
        (fun c => (c.score, c.max_score))
      = some ((0 : ℚ), (12 : ℚ)) := by
  refine ⟨by decide, by decide, ?_⟩
  simp only [computeCategoryScore, rubricV2, List.find?, String.reduceBEq,
    List.filter, List.any, List.map, Option.map]
  norm_num [roundTo2, jsRound]

/-- C4 counterexample: a category-result list whose entries all satisfy
0 ≤ score ≤ max_score on which computeTotalScore is 174, outside [0,100] and
different from round(100 × Σ score / Σ max_score) = 100, because the code divides
by the rubric total weight (115 for rubricV2), not by Σ max_score. -/
theorem computeTotalScore_counterexample :
    ((0 : ℚ) ≤ 200 ∧ (200 : ℚ) ≤ 200)
    ∧ computeTotalScore rubricV2
        [{ id := "x", label := "x", checks := [], score := 200, max_score := 200,
           percentage := 100 }] = 174
    ∧ ¬ (computeTotalScore rubricV2
        [{ id := "x", label := "x", checks := [], score := 200, max_score := 200,
           percentage := 100 }] ≤ 100)
    ∧ computeTotalScore rubricV2
        [{ id := "x", label := "x", checks := [], score := 200, max_score := 200,
           percentage := 100 }] ≠ jsRound (100 * ((200 : ℚ) / 200)) := by
  have hts : computeTotalScore rubricV2
      [{ id := "x", label := "x", checks := [], score := 200, max_score := 200,
         percentage := 100 }] = 174 := by
    norm_num [computeTotalScore, rubricV2, jsRound, round_eq, Int.floor_eq_iff]
  refine ⟨⟨by norm_num, by norm_num⟩, hts, by rw [hts]; decide, ?_⟩
  rw [hts]
  norm_num [jsRound]

/-- C4 amended: for every rubric and every category
result list with nonnegative scores summing to at most the rubric total weight
(as holds for the results computeCategoryScore produces for the rubric
categories), computeTotalScore is an integer in [0,100] equal to
round(100 × Σ score / total rubric weight), and it is 0 rather than a division
by zero when the total possible points are 0. -/
theorem computeTotalScore_bounds (r : Rubric)
    (categoryResults : List CategoryResult)
    (hnn : ∀ res ∈ categoryResults, (0:ℚ) ≤ res.score)
    (hle : (categoryResults.map (fun res => res.score)).sum
        ≤ rubricTotalWeight r) :
    0 ≤ computeTotalScore r categoryResults
    ∧ computeTotalScore r categoryResults ≤ 100
    ∧ computeTotalScore r categoryResults
      = (if 0 < rubricTotalWeight r then
          jsRound ((categoryResults.map (fun res => res.score)).sum
            / rubricTotalWeight r * 100)
        else 0)
    ∧ (rubricTotalWeight r = 0 → computeTotalScore r categoryResults = 0) := by
  have hA : (0:ℚ) ≤ (categoryResults.map (fun res => res.score)).sum := by
    apply List.sum_nonneg
    intro x hx
    rcases List.mem_map.mp hx with ⟨res, hres, rfl⟩
    exact hnn res hres
  have htot : computeTotalScore r categoryResults
      = (if 0 < rubricTotalWeight r then
          jsRound ((categoryResults.map (fun res => res.score)).sum
            / rubricTotalWeight r * 100)
        else 0) := by
    simp only [computeTotalScore, rubricTotalWeight, gt_iff_lt]
    split
    · rfl
    · simp [jsRound]
  refine ⟨?_, ?_, htot, ?_⟩
  · rw [htot]
    split
    · rename_i hT
      have hq : (0:ℚ) ≤ (categoryResults.map (fun res => res.score)).sum
          / rubricTotalWeight r * 100 := by positivity
      unfold jsRound
      rw [round_eq]
      have h0 : (0:ℤ) = ⌊(0:ℚ)⌋ := by norm_num
      rw [h0]
      apply Int.floor_le_floor
      linarith
    · simp
  · rw [htot]
    split
    · rename_i hT
      have hq : (categoryResults.map (fun res => res.score)).sum
          / rubricTotalWeight r * 100 ≤ 100 := by
        have h1 : (categoryResults.map (fun res => res.score)).sum
            / rubricTotalWeight r ≤ 1 := (div_le_one hT).mpr hle
        nlinarith
      unfold jsRound
      rw [round_eq]
      have h100 : ⌊(100 + 1/2 : ℚ)⌋ = (100:ℤ) := by
        rw [Int.floor_eq_iff]
        norm_num
      rw [← h100]
      apply Int.floor_le_floor
      linarith
    · simp
  · intro h0
    rw [htot, h0]
    simp

/-- Witness for the amended C4 at a concrete rubric and category results. -/
theorem computeTotalScore_bounds_witness :
    0 ≤ computeTotalScore rubricV2
        [{ id := "fetchability", label := "Fetchability", checks := [],
           score := 10, max_score := 20, percentage := 50 }]
    ∧ computeTotalScore rubricV2
        [{ id := "fetchability", label := "Fetchability", checks := [],
           score := 10, max_score := 20, percentage := 50 }] ≤ 100 := by
  have h := computeTotalScore_bounds rubricV2
    [{ id := "fetchability", label := "Fetchability", checks := [],
       score := 10, max_score := 20, percentage := 50 }]
    (by decide) (by norm_num [rubricTotalWeight, rubricV2])
  exact ⟨h.1, h.2.1⟩

/-- Phase identifiers, from the keys of PHASES
(src/src/lib/analyze/rubric.ts lines 8-31). -/
inductive Phase where
  | p0
  | p1
  | p2
  | p3
deriving DecidableEq, Repr

/-- enabled_checks lists of the PHASES table
(src/src/lib/analyze/rubric.ts lines 8-29). -/
def enabledChecks : Phase → List String
  | .p0 => []
  | .p1 => ["F1", "F2", "F5", "M1", "M4", "S1", "S2", "C1", "N1"]
  | .p2 => ["F1", "F2", "F3", "F4", "F5", "M1", "M2", "M3", "M4", "M5", "M6",
            "S1", "S2", "S3", "C1", "C2", "C3", "C4", "R1", "R2",
            "N1", "N2", "N3"]
  | .p3 => ["F1", "F2", "F3", "F4", "F5", "M1", "M2", "M3", "M4", "M5", "M6",
            "S1", "S2", "S3", "S4", "C1", "C2", "C3", "C4", "R1", "R2",
            "N1", "N2", "N3"]

/-- isCheckEnabled from src/src/lib/analyze/rubric.ts (lines 39-41). -/
def isCheckEnabled (checkId : String) (phase : Phase) : Bool :=
  (enabledChecks phase).contains checkId

/-- computeCategoryScore from src/src/lib/analyze/rubric.ts, phase-gated variant
(lines 49-88). -/
def computeCategoryScorePhased (r : Rubric) (categoryId : String)
    (checkResults : List CheckResult) (phase : Phase) : Option CategoryResult :=
  match r.categories.find? (fun c => c.id == categoryId) with
  | none => none
  | some category =>
    let enabledCks := category.checks.filter
      (fun check => isCheckEnabled check.id phase)
    let maxScore : ℚ := (enabledCks.map (fun ch => ch.weight)).sum
    let actualScore : ℚ :=
      ((checkResults.filter
          (fun res => isCheckEnabled res.id phase
            && category.checks.any (fun ch => ch.id == res.id))).map
        (fun res => res.score)).sum
    let percentage : ℚ := if maxScore > 0 then actualScore / maxScore * 100 else 0
    some { id := categoryId
           label := category.label
           checks := checkResults.filter
             (fun res => category.checks.any (fun ch => ch.id == res.id))
           score := actualScore
           max_score := maxScore
           percentage := roundTo2 percentage }

/-- computeTotalScore from src/src/lib/analyze/rubric.ts, phase-gated variant
(lines 91-110). -/
def computeTotalScorePhased (r : Rubric) (categoryResults : List CategoryResult)
    (phase : Phase) : ℤ :=
  let totalPossiblePoints : ℚ :=
    (r.categories.map (fun c =>
      ((c.checks.filter (fun check => isCheckEnabled check.id phase)).map
        (fun ch => ch.weight)).sum)).sum
  let actualPoints : ℚ := (categoryResults.map (fun res => res.score)).sum
  let normalizedScore : ℚ :=
    if totalPossiblePoints > 0 then actualPoints / totalPossiblePoints * 100 else 0
  jsRound normalizedScore

/-- Restriction of a rubric to the checks active in a phase; stated from the spec
sentence that only active checks contribute to maxScore and to the total, for
comparison with the phase-gated aggregation of the source. -/
def filterRubric (r : Rubric) (phase : Phase) : Rubric :=
  { version := r.version
    allow_na := r.allow_na
    categories := r.categories.map (fun c =>
      { c with checks :=
          c.checks.filter (fun check => isCheckEnabled check.id phase) }) }

/-- Helper: find? by category id commutes with an id-preserving map. -/
theorem find?_map_preserving (l : List Category) (cid : String)
    (g : Category → Category) (hg : ∀ c, (g c).id = c.id) :
    (l.map g).find? (fun c => c.id == cid)
      = (l.find? (fun c => c.id == cid)).map g := by
  induction l with
  | nil => rfl
  | cons c rest ih =>
    simp only [List.map_cons, List.find?, hg c]
    cases hc : (c.id == cid) with
    | true => simp
    | false => simpa using ih

/-- Helper: looking a category up in the phase-restricted rubric finds the
restriction of the category found in the full rubric. -/
theorem find?_filterRubric (r : Rubric) (phase : Phase) (cid : String) :
    (filterRubric r phase).categories.find? (fun c => c.id == cid)
      = (r.categories.find? (fun c => c.id == cid)).map
          (fun c => { c with
                      checks := c.checks.filter
                        (fun check => isCheckEnabled check.id phase) }) := by
  exact find?_map_preserving r.categories cid _ (fun c => rfl)

/-- Helper: gating a result list by isCheckEnabled is the same as matching
against the gated check list. -/
theorem enabled_any_comm (checks : List Check) (rid : String) (phase : Phase) :
    (isCheckEnabled rid phase && checks.any (fun ch => ch.id == rid))
      = (checks.filter (fun ch => isCheckEnabled ch.id phase)).any
          (fun ch => ch.id == rid) := by
  rw [← Bool.coe_iff_coe]
  simp only [Bool.and_eq_true, List.any_eq_true, List.mem_filter, beq_iff_eq]
  constructor
  · rintro ⟨he, ch, hm, hid⟩
    exact ⟨ch, ⟨hm, by rw [hid]; exact he⟩, hid⟩
  · rintro ⟨ch, ⟨hm, he⟩, hid⟩
    exact ⟨by rw [← hid]; exact he, ch, hm, hid⟩

/-- C5: phase gating excludes inactive checks from aggregation. First, adding a
result for a check that is not enabled in the phase changes neither the category
score nor the category max_score computed by computeCategoryScorePhased. Second,
score, max_score and percentage of the phase-gated category aggregation coincide
with the phase-free aggregation over the rubric restricted to the active checks,
so an inactive check's weight is excluded from max_score; and the phase-gated
total equals the phase-free total of the restricted rubric, so inactive weights
are excluded from the total possible points as well. -/
theorem phase_gating_excludes_inactive (r : Rubric) (phase : Phase)
    (categoryId : String) (checkResults : List CheckResult) (res : CheckResult)
    (catResults : List CategoryResult)
    (h : isCheckEnabled res.id phase = false) :
    ((computeCategoryScorePhased r categoryId (res :: checkResults) phase).map
        (fun c => (c.score, c.max_score))
      = (computeCategoryScorePhased r categoryId checkResults phase).map
          (fun c => (c.score, c.max_score)))
    ∧ ((computeCategoryScorePhased r categoryId checkResults phase).map
        (fun c => (c.score, c.max_score, c.percentage))
      = (computeCategoryScore (filterRubric r phase) categoryId
          checkResults).map (fun c => (c.score, c.max_score, c.percentage)))
    ∧ computeTotalScorePhased r catResults phase
      = computeTotalScore (filterRubric r phase) catResults := by
  refine ⟨?_, ?_, ?_⟩
  · unfold computeCategoryScorePhased
    cases hfind : r.categories.find? (fun c => c.id == categoryId) with
    | none => rfl
    | some category => simp [List.filter_cons, h]
  · unfold computeCategoryScorePhased computeCategoryScore
    rw [find?_filterRubric r phase categoryId]
    cases hfind : r.categories.find? (fun c => c.id == categoryId) with
    | none => rfl
    | some category =>
      have hpred : (fun (res : CheckResult) =>
            isCheckEnabled res.id phase
              && category.checks.any (fun ch => ch.id == res.id))
          = (fun (res : CheckResult) =>
            (category.checks.filter
              (fun ch => isCheckEnabled ch.id phase)).any
                (fun ch => ch.id == res.id)) := by
        funext res
        exact enabled_any_comm category.checks res.id phase
      simp only [Option.map_some]
      rw [hpred]
      rfl
  · simp [computeTotalScorePhased, computeTotalScore, filterRubric,
      List.map_map, Function.comp_def]

/-- Witness for C5 at phase 2 and the check S4, which phase 2 does not enable. -/
theorem phase_gating_excludes_inactive_witness :
    isCheckEnabled "S4" Phase.p2 = false
    ∧ ((computeCategoryScorePhased rubricV2 "schema"
        [{ id := "S4", status := CheckStatus.pass, score := 3, evidence := [] }]
        Phase.p2).map (fun c => (c.score, c.max_score))
      = (computeCategoryScorePhased rubricV2 "schema" [] Phase.p2).map
          (fun c => (c.score, c.max_score))) := by
  have h := phase_gating_excludes_inactive rubricV2 Phase.p2 "schema" []
    { id := "S4", status := CheckStatus.pass, score := 3, evidence := [] } []
    (by decide)
  exact ⟨by decide, h.1⟩

/-- Postal address fields of a JSON-LD structured data item, as read by the
extractFacts address loop (src/src/lib/parse/dom.ts lines 203-209). -/
structure SchemaAddress where
  streetAddress : Option String
  addressLocality : Option String
  addressRegion : Option String
  postalCode : Option String
  addressCountry : Option String
deriving DecidableEq, Repr

/-- Address record of DetectedFacts (src/src/types/scorecard.ts lines 71-77). -/
structure FactsAddress where
  street : Option String
  locality : Option String
  region : Option String
  postal : Option String
  country : Option String
deriving DecidableEq, Repr

/-- Geo field of a JSON-LD item (src/src/lib/parse/dom.ts lines 212-217);
parseFloat applied to the numeric latitude/longitude is modelled as the numeric
value itself. -/
structure SchemaGeo where
  latitude : ℚ
  longitude : ℚ
deriving DecidableEq, Repr

/-- Geo record of DetectedFacts (src/src/types/scorecard.ts lines 78-81). -/
structure FactsGeo where
  lat : ℚ
  lon : ℚ
deriving DecidableEq, Repr

/-- Address/geo bearing part of one parsed JSON-LD item, the only fields the
extractFacts address/geo loop reads (src/src/lib/parse/dom.ts lines 200-218). -/
structure JsonLdItem where
  address : Option SchemaAddress
  geo : Option SchemaGeo
deriving DecidableEq, Repr

/-- Field mapping from the schema.org address onto the facts address
(src/src/lib/parse/dom.ts lines 203-209). -/
def factsAddressOf (a : SchemaAddress) : FactsAddress :=
  { street := a.streetAddress
    locality := a.addressLocality
    region := a.addressRegion
    postal := a.postalCode
    country := a.addressCountry }

/-- Field mapping from the schema.org geo onto the facts geo
(src/src/lib/parse/dom.ts lines 212-216). -/
def factsGeoOf (g : SchemaGeo) : FactsGeo :=
  { lat := g.latitude, lon := g.longitude }

/-- Body of one iteration of the extractFacts address/geo loop
(src/src/lib/parse/dom.ts lines 201-218): an item carrying an address or geo
overwrites the fact collected so far. -/
def extractStep (facts : Option FactsAddress × Option FactsGeo)
    (item : JsonLdItem) : Option FactsAddress × Option FactsGeo :=
  ( match item.address with
    | some a => some (factsAddressOf a)
    | none => facts.1
  , match item.geo with
    | some g => some (factsGeoOf g)
    | none => facts.2 )

/-- Address/geo extraction loop of extractFacts
(src/src/lib/parse/dom.ts lines 200-218), run over the parsed jsonLd items in
extraction order. -/
def extractFactsAddressGeo (items : List JsonLdItem) :
    Option FactsAddress × Option FactsGeo :=
  items.foldl extractStep (none, none)

/-- Helper: the loop resolves to the last matching item, for any start value. -/
theorem extractFactsAddressGeo_go (items : List JsonLdItem)
    (acc : Option FactsAddress × Option FactsGeo) :
    items.foldl extractStep acc
      = ( ((items.reverse.findSome? (fun i => i.address)).map factsAddressOf).or
            acc.1
        , ((items.reverse.findSome? (fun i => i.geo)).map factsGeoOf).or
            acc.2 ) := by
  induction items generalizing acc with
  | nil => simp
  | cons i rest ih =>
    rw [List.foldl_cons, ih (extractStep acc i)]
    rw [List.reverse_cons, List.findSome?_append, List.findSome?_append]
    cases ha : rest.reverse.findSome? (fun i => i.address) <;>
      cases hg : rest.reverse.findSome? (fun i => i.geo) <;>
        cases hia : i.address <;>
          cases hig : i.geo <;>
            simp [extractStep, List.findSome?, hia, hig]

/-- C6 counterexample: two structured-data items both carry an address; the
facts address is copied from the second (last) item, not from the first item as
the claim states. -/
theorem extractFacts_address_counterexample :
    (extractFactsAddressGeo
        [ { address := some { streetAddress := some "1 First St"
                              addressLocality := some "Springfield"
                              addressRegion := none
                              postalCode := none
                              addressCountry := none }
            geo := none }
        , { address := some { streetAddress := some "2 Second St"
                              addressLocality := some "Shelbyville"
                              addressRegion := none
                              postalCode := none
                              addressCountry := none }
            geo := none } ]).1
      = some (factsAddressOf
          { streetAddress := some "2 Second St"
            addressLocality := some "Shelbyville"
            addressRegion := none
            postalCode := none
            addressCountry := none })
    ∧ (extractFactsAddressGeo
        [ { address := some { streetAddress := some "1 First St"
                              addressLocality := some "Springfield"
                              addressRegion := none
                              postalCode := none
                              addressCountry := none }
            geo := none }
        , { address := some { streetAddress := some "2 Second St"
                              addressLocality := some "Shelbyville"
                              addressRegion := none
                              postalCode := none
                              addressCountry := none }
            geo := none } ]).1
      ≠ some (factsAddressOf
          { streetAddress := some "1 First St"
            addressLocality := some "Springfield"
            addressRegion := none
            postalCode := none
            addressCountry := none }) := by
  constructor <;> decide

/-- C6 amended: when several structured-data items carry an address or geo
field, extractFacts sets the facts address and geo from the last matching item
in extraction order (each matching item overwrites the previous one),
deterministically: the result is the first match over the reversed item list. -/
theorem extractFactsAddressGeo_last_wins (items : List JsonLdItem) :
    (extractFactsAddressGeo items).1
      = (items.reverse.findSome? (fun i => i.address)).map factsAddressOf
    ∧ (extractFactsAddressGeo items).2
      = (items.reverse.findSome? (fun i => i.geo)).map factsGeoOf := by
  unfold extractFactsAddressGeo
  rw [extractFactsAddressGeo_go items (none, none)]
  constructor <;> simp

/-- JavaScript String.prototype.includes, modelled as substring containment. -/
def jsIncludes (s pat : String) : Bool := decide (pat.toList <:+: s.toList)

/-- Outcome of the robots.txt fetch attempt inside the F3 try block
(src/unnamed/part_000 lines 766-790): the whole try body threw (request threw,
timed out, or URL construction failed), or the response was not ok, or a body
was retrieved. -/
inductive RobotsFetch where
  | threw
  | notOk
  | ok (body : String)
deriving DecidableEq, Repr

/-- F3 robots-compliance evaluator from runAllChecks (src/unnamed/part_000 lines
766-790, identical at lines 101-125): the catch branch and the non-ok branch
both report pass with the default-allow evidence; a retrieved body is matched
for the blocking patterns. The function is total: no exception escapes. -/
def f3RobotsCheck (outcome : RobotsFetch) (path : String) :
    CheckStatus × List String :=
  match outcome with
  | .ok body =>
    let isBlocked := jsIncludes body (String.append "Disallow: " path)
      || jsIncludes body "Disallow: /"
    let gptBotBlocked := jsIncludes body "User-agent: GPTBot"
      && jsIncludes body "Disallow:"
    if !isBlocked && !gptBotBlocked then
      (CheckStatus.pass, ["robots.txt allows crawling and GPTBot"])
    else
      (CheckStatus.fail,
        [if isBlocked then "Page path is blocked in robots.txt"
         else "GPTBot is blocked in robots.txt"])
  | .notOk => (CheckStatus.pass, ["No robots.txt found (default allow)"])
  | .threw => (CheckStatus.pass, ["No robots.txt found (default allow)"])

/-- C8: if the robots.txt request throws or times out, the F3 robots-compliance
check reports pass with evidence noting the default-allow interpretation, for
every page path; totality of the evaluator models that no exception escapes the
try/catch to the caller. -/
theorem f3RobotsCheck_throw_pass (path : String) :
    f3RobotsCheck RobotsFetch.threw path
      = (CheckStatus.pass, ["No robots.txt found (default allow)"]) := rfl

/-- JSON values as produced by JSON.parse; objects are key-value lists. -/
inductive Json where
  | null
  | bool (b : Bool)
  | num (q : ℚ)
  | str (s : String)
  | arr (elems : List Json)
  | obj (fields : List (String × Json))

/-- Entries one parsed JSON-LD block contributes: an array is spread
element-wise (jsonLd.push(...parsed)), any other value is pushed as a single
entry (src/src/lib/parse/dom.ts lines 86-90). -/
def jsonLdItemsOf (parsed : Json) : List Json :=
  match parsed with
  | .arr elems => elems
  | v => [v]

/-- JSON-LD collection loop of parseHTML (src/src/lib/parse/dom.ts lines
80-95): each script block contributes its JSON.parse outcome, where none stands
for a parse failure (the catch comment says: invalid JSON-LD, skip). -/
def collectJsonLd (blocks : List (Option Json)) : List Json :=
  blocks.foldl
    (fun acc block =>
      match block with
      | none => acc
      | some parsed =>
        match parsed with
        | .arr elems => acc ++ elems
        | v => acc ++ [v])
    []

/-- Helper: the collection loop appends each parseable block's entries. -/
theorem collectJsonLd_go (blocks : List (Option Json)) (acc : List Json) :
    blocks.foldl
      (fun acc block =>
        match block with
        | none => acc
        | some parsed =>
          match parsed with
          | .arr elems => acc ++ elems
          | v => acc ++ [v]) acc
      = acc ++ (blocks.filterMap (fun b => b)).flatMap jsonLdItemsOf := by
  induction blocks generalizing acc with
  | nil => simp
  | cons b rest ih =>
    cases b with
    | none => simp [ih]
    | some parsed =>
      rw [List.foldl_cons, ih]
      cases parsed <;> simp [jsonLdItemsOf]

/-- C9: a JSON-LD script block that fails to parse is silently skipped while
every parseable block still contributes its entries (arrays flattened): the
collected sequence over blocks with a malformed block inserted equals the
sequence over the remaining blocks alone, which is the concatenation of each
parseable block's entries; in particular a malformed block among valid blocks
never reduces the number of entries obtained from the valid blocks. -/
theorem collectJsonLd_skips_malformed (l1 l2 blocks : List (Option Json)) :
    collectJsonLd (l1 ++ none :: l2) = collectJsonLd (l1 ++ l2)
    ∧ collectJsonLd blocks
      = (blocks.filterMap (fun b => b)).flatMap jsonLdItemsOf := by
  constructor
  · unfold collectJsonLd
    rw [collectJsonLd_go, collectJsonLd_go]
    simp
  · unfold collectJsonLd
    rw [collectJsonLd_go]
    simp

/-- Interior-empty removal on the pieces of a whitespace split: JavaScript
String.prototype.split(/\s+/) splits on maximal whitespace runs, so the empty
pieces a character-by-character split leaves between consecutive whitespace
characters disappear, while a leading or trailing empty piece remains. -/
def keepLastNonempty : List (List Char) → List (List Char)
  | [] => []
  | [x] => [x]
  | x :: xs => if x.isEmpty then keepLastNonempty xs else x :: keepLastNonempty xs

/-- JavaScript String.prototype.split(/\s+/), as used by
calculateTextSimilarity (src/unnamed/part_000 line 1576). -/
def splitWsRuns (s : String) : List String :=
  match s.toList.splitOnP (fun c => c.isWhitespace) with
  | [] => []
  | first :: rest => (first :: keepLastNonempty rest).map (fun cs => String.mk cs)

/-- JavaScript String.prototype.toLowerCase, character by character. -/
def jsToLower (s : String) : String := String.mk (s.toList.map Char.toLower)

/-- calculateTextSimilarity from src/unnamed/part_000 (lines 1570-1584,
identical at lines 603-617): bag-of-words Jaccard similarity over the
lowercased, whitespace-split word sets; 0 when either text is empty. -/
def calculateTextSimilarity (text1 text2 : String) : ℚ :=
  if text1 = "" ∨ text2 = "" then 0
  else
    let words1 := splitWsRuns (jsToLower text1)
    let words2 := splitWsRuns (jsToLower text2)
    let set1 := words1.dedup
    let set2 := words2.dedup
    let intersection := set1.filter (fun x => set2.contains x)
    let union := (set1 ++ set2).dedup
    (intersection.length : ℚ) / (union.length : ℚ)

/-- Inputs of the F5 parity decision (src/unnamed/part_000 lines 820-866): the
primary headings and main texts parsed from the raw and the rendered HTML, the
img-tag counts of the two HTML strings and the parsed link counts. -/
structure F5Input where
  h1Raw : Option String
  h1Rendered : Option String
  mainTextRaw : String
  mainTextRendered : String
  rawImageCount : ℕ
  renderedImageCount : ℕ
  rawLinkCount : ℕ
  renderedLinkCount : ℕ
deriving DecidableEq, Repr

/-- Distance of two counts, Math.abs(a - b) on naturals. -/
def natDist (a b : ℕ) : ℕ := max a b - min a b

/-- Large raw/rendered divergence test of F5 (src/unnamed/part_000 lines
832-837): image-count difference above 2 or link-count difference above 5. -/
def f5HasSignificantDifferences (i : F5Input) : Bool :=
  decide (natDist i.rawImageCount i.renderedImageCount > 2)
    || decide (natDist i.rawLinkCount i.renderedLinkCount > 5)

/-- F5 parity decision from runAllChecks (src/unnamed/part_000 lines 839-861):
pass on heading match, similarity above 0.8 and no significant differences;
the intermediate status when the heading matches with similarity above 0.6 or
when there are no significant differences; fail otherwise. -/
def f5ParityStatus (i : F5Input) : CheckStatus :=
  let h1Match := i.h1Raw == i.h1Rendered
  let textSimilarity := calculateTextSimilarity i.mainTextRaw i.mainTextRendered
  let hasSignificantDifferences := f5HasSignificantDifferences i
  if h1Match && decide (textSimilarity > 8/10) && !hasSignificantDifferences then
    CheckStatus.pass
  else if (h1Match && decide (textSimilarity > 6/10))
      || !hasSignificantDifferences then
    CheckStatus.semi
  else
    CheckStatus.fail

/-- Helper: three-way characterization of the F5 decision. -/
theorem f5ParityStatus_iff (i : F5Input) :
    (f5ParityStatus i = CheckStatus.pass
      ↔ (i.h1Raw = i.h1Rendered
        ∧ 8/10 < calculateTextSimilarity i.mainTextRaw i.mainTextRendered
        ∧ f5HasSignificantDifferences i = false))
    ∧ (f5ParityStatus i = CheckStatus.semi
      ↔ (¬ (i.h1Raw = i.h1Rendered
            ∧ 8/10 < calculateTextSimilarity i.mainTextRaw i.mainTextRendered
            ∧ f5HasSignificantDifferences i = false)
        ∧ ((i.h1Raw = i.h1Rendered
            ∧ 6/10 < calculateTextSimilarity i.mainTextRaw i.mainTextRendered)
          ∨ f5HasSignificantDifferences i = false)))
    ∧ (f5ParityStatus i = CheckStatus.fail
      ↔ (¬ (i.h1Raw = i.h1Rendered
            ∧ 6/10 < calculateTextSimilarity i.mainTextRaw i.mainTextRendered)
        ∧ f5HasSignificantDifferences i = true)) := by
  simp only [f5ParityStatus]
  split_ifs with hA hB
  · simp only [Bool.and_eq_true, beq_iff_eq, decide_eq_true_eq,
      Bool.not_eq_true'] at hA
    refine ⟨iff_of_true rfl ⟨hA.1.1, hA.1.2, hA.2⟩, ?_, ?_⟩
    · exact iff_of_false (by simp)
        (fun h => h.1 ⟨hA.1.1, hA.1.2, hA.2⟩)
    · refine iff_of_false (by simp) (fun h => ?_)
      rw [hA.2] at h
      exact absurd h.2 (by simp)
  · simp only [Bool.and_eq_true, beq_iff_eq, decide_eq_true_eq,
      Bool.not_eq_true'] at hA
    simp only [Bool.or_eq_true, Bool.and_eq_true, beq_iff_eq,
      decide_eq_true_eq, Bool.not_eq_true'] at hB
    have hA2 : ¬ (i.h1Raw = i.h1Rendered
        ∧ 8/10 < calculateTextSimilarity i.mainTextRaw i.mainTextRendered
        ∧ f5HasSignificantDifferences i = false) := by
      intro h
      exact hA ⟨⟨h.1, h.2.1⟩, h.2.2⟩
    refine ⟨iff_of_false (by simp) (fun h => hA2 h), iff_of_true rfl ⟨hA2, hB⟩,
      ?_⟩
    refine iff_of_false (by simp) (fun h => ?_)
    rcases hB with h6 | hf
    · exact h.1 h6
    · rw [hf] at h
      exact absurd h.2 (by simp)
  · simp only [Bool.and_eq_true, beq_iff_eq, decide_eq_true_eq,
      Bool.not_eq_true'] at hA
    simp only [Bool.or_eq_true, Bool.and_eq_true, beq_iff_eq,
      decide_eq_true_eq, Bool.not_eq_true'] at hB
    push_neg at hB
    have hsig : f5HasSignificantDifferences i = true := by
      cases hcase : f5HasSignificantDifferences i
      · exact absurd hcase hB.2
      · rfl
    refine ⟨?_, ?_,
      iff_of_true rfl ⟨fun h => absurd h.2 (not_lt.mpr (hB.1 h.1)), hsig⟩⟩
    · refine iff_of_false (by simp) (fun h => ?_)
      have hle := hB.1 h.1
      linarith [h.2.1]
    · refine iff_of_false (by simp) (fun h => ?_)
      rcases h.2 with h6 | hf
      · have hle := hB.1 h6.1
        linarith [h6.2]
      · rw [hf] at hsig
        exact absurd hsig (by simp)

/-- C7 amended: the raw-vs-rendered parity check F5 reports pass exactly when
the primary H1 matches between the raw and rendered pages and the bag-of-words
Jaccard similarity of the main text exceeds 0.8 and there is no large
image/link-count divergence; it reports the intermediate (partial-credit)
status exactly when it does not pass but either the H1 matches with similarity
above 0.6, or there is no large divergence; otherwise it reports fail. -/
theorem f5ParityStatus_spec (i : F5Input) :
    (f5ParityStatus i = CheckStatus.pass
      ↔ (i.h1Raw = i.h1Rendered
        ∧ 8/10 < calculateTextSimilarity i.mainTextRaw i.mainTextRendered
        ∧ f5HasSignificantDifferences i = false))
    ∧ (f5ParityStatus i = CheckStatus.semi
      ↔ (¬ (i.h1Raw = i.h1Rendered
            ∧ 8/10 < calculateTextSimilarity i.mainTextRaw i.mainTextRendered
            ∧ f5HasSignificantDifferences i = false)
        ∧ ((i.h1Raw = i.h1Rendered
            ∧ 6/10 < calculateTextSimilarity i.mainTextRaw i.mainTextRendered)
          ∨ f5HasSignificantDifferences i = false)))
    ∧ (f5ParityStatus i = CheckStatus.fail
      ↔ (¬ (i.h1Raw = i.h1Rendered
            ∧ 6/10 < calculateTextSimilarity i.mainTextRaw i.mainTextRendered)
        ∧ f5HasSignificantDifferences i = true)) :=
  f5ParityStatus_iff i

/-- Input refuting the claimed F5 partial condition: differing primary
headings, main-text similarity 7/10 (above the 0.6 threshold), and an
image-count divergence of 3 (a large divergence). -/
def f5CounterInput : F5Input :=
  { h1Raw := some "Acme Plumbing in Springfield"
    h1Rendered := some "Loading"
    mainTextRaw := "a b c d e f g h"
    mainTextRendered := "a b c d e f g x y"
    rawImageCount := 3
    renderedImageCount := 0
    rawLinkCount := 0
    renderedLinkCount := 0 }

/-- C7 counterexample: at f5CounterInput the claimed condition for the partial
status holds (the similarity 7/10 exceeds 0.6), yet F5 reports fail and not the
intermediate status, because the intermediate branch of the code requires the
heading match together with similarity above 0.6, or no large divergence. -/
theorem f5Parity_counterexample :
    calculateTextSimilarity f5CounterInput.mainTextRaw
        f5CounterInput.mainTextRendered = 7/10
    ∧ ((6:ℚ)/10 < 7/10)
    ∧ f5ParityStatus f5CounterInput = CheckStatus.fail
    ∧ f5ParityStatus f5CounterInput ≠ CheckStatus.semi := by
  have hsim : calculateTextSimilarity "a b c d e f g h" "a b c d e f g x y"
      = 7/10 := by
    have h7 : ((splitWsRuns (jsToLower "a b c d e f g h")).dedup.filter
        (fun x =>
          (splitWsRuns (jsToLower "a b c d e f g x y")).dedup.contains x)).length
        = 7 := by decide
    have h10 : (((splitWsRuns (jsToLower "a b c d e f g h")).dedup
        ++ (splitWsRuns (jsToLower "a b c d e f g x y")).dedup).dedup).length
        = 10 := by decide
    simp only [calculateTextSimilarity, String.reduceEq, or_self, if_false,
      h7, h10]
    norm_num
  have hfail : f5ParityStatus f5CounterInput = CheckStatus.fail := by
    refine ((f5ParityStatus_iff f5CounterInput).2.2).mpr ⟨?_, by decide⟩
    intro h
    exact absurd h.1 (by decide)
  refine ⟨hsim, by norm_num, hfail, ?_⟩
  rw [hfail]
  simp

/-- Lowercased patterns of the C3 regex (ul, ol, li and table opening tags),
from src/unnamed/part_000 line 1172 (identical at line 431). -/
def listTagPatterns : List (List Char) :=
  ["<ul>".toList, "<ol>".toList, "<li>".toList, "<table>".toList]

/-- Count of the non-overlapping, case-insensitive matches of the C3 regex in a
character list, scanning left to right as String.prototype.match with the g
flag does (the input is lowercased beforehand; the four patterns contain a
left angle bracket only at position 0, so matches can never overlap). -/
def countListTagsAux : List Char → ℕ
  | [] => 0
  | c :: rest =>
    if ("<ul>".toList).isPrefixOf (c :: rest) then
      1 + countListTagsAux (rest.drop 3)
    else if ("<ol>".toList).isPrefixOf (c :: rest) then
      1 + countListTagsAux (rest.drop 3)
    else if ("<li>".toList).isPrefixOf (c :: rest) then
      1 + countListTagsAux (rest.drop 3)
    else if ("<table>".toList).isPrefixOf (c :: rest) then
      1 + countListTagsAux (rest.drop 6)
    else countListTagsAux rest
  termination_by cs => cs.length
  decreasing_by
    all_goals simp [List.length_drop]
    all_goals omega

/-- listCount of the C3 services-in-lists check
(src/unnamed/part_000 lines 1172-1173): number of matches of the
case-insensitive regex over the tag-free main text. -/
def countListTags (mainText : String) : ℕ :=
  countListTagsAux (mainText.toList.map Char.toLower)

/-- C3 services-in-lists decision from runAllChecks
(src/unnamed/part_000 lines 1175-1188): pass at three or more list/table
elements, the intermediate status at one or two, fail at zero. -/
def c3ListStatus (mainText : String) : CheckStatus × List String :=
  let listCount := countListTags mainText
  if listCount ≥ 3 then
    (CheckStatus.pass,
      ["Found " ++ toString listCount
        ++ " list/table elements for services/amenities"])
  else if listCount ≥ 1 then
    (CheckStatus.semi,
      ["Found " ++ toString listCount
        ++ " list/table elements (could use more structure)"])
  else
    (CheckStatus.fail, ["No list or table elements found for services/amenities"])

/-- Helper: the match count is zero when no pattern occurs in the text. -/
theorem countListTagsAux_eq_zero (cs : List Char)
    (h : ∀ pat ∈ listTagPatterns, ¬ pat <:+: cs) :
    countListTagsAux cs = 0 := by
  induction cs with
  | nil => rw [countListTagsAux]
  | cons c rest ih =>
    have hnp : ∀ pat ∈ listTagPatterns, ¬ pat.isPrefixOf (c :: rest) = true := by
      intro pat hp hpre
      exact h pat hp (List.isPrefixOf_iff_prefix.mp hpre).isInfix
    have h1 := hnp ("<ul>".toList) (by decide)
    have h2 := hnp ("<ol>".toList) (by decide)
    have h3 := hnp ("<li>".toList) (by decide)
    have h4 := hnp ("<table>".toList) (by decide)
    rw [countListTagsAux, if_neg h1, if_neg h2, if_neg h3, if_neg h4]
    refine ih (fun pat hp hinf => h pat hp (List.infix_cons hinf))

/-- C10: the C3 check counts the literal markup substrings inside the tag-free
main text; for every main text that does not contain any of the four markup
patterns (case-insensitively), the counted list/table elements are 0 and C3
reports fail. -/
theorem c3ListStatus_fail_on_tag_free (mainText : String)
    (h : ∀ pat ∈ listTagPatterns,
      ¬ pat <:+: (mainText.toList.map Char.toLower)) :
    countListTags mainText = 0
    ∧ c3ListStatus mainText
      = (CheckStatus.fail,
        ["No list or table elements found for services/amenities"]) := by
  have hz : countListTags mainText = 0 :=
    countListTagsAux_eq_zero (mainText.toList.map Char.toLower) h
  refine ⟨hz, ?_⟩
  simp only [c3ListStatus, hz]
  norm_num

/-- Witness for C10 on a concrete markup-free visible text. -/
theorem c3ListStatus_fail_on_tag_free_witness :
    countListTags
      "Our plumbing services in Springfield cover drains and repairs" = 0
    ∧ c3ListStatus
      "Our plumbing services in Springfield cover drains and repairs"
      = (CheckStatus.fail,
        ["No list or table elements found for services/amenities"]) :=
  c3ListStatus_fail_on_tag_free
    "Our plumbing services in Springfield cover drains and repairs"
    (by decide)

/-- Check ids of the whole rubric in declaration order. -/
def rubricCheckIds (r : Rubric) : List String :=
  (r.categories.map (fun c => c.checks.map (fun ch => ch.id))).flatten

/-- Weight that the score derivation of createCheckResult uses for an id. -/
def weightOf (r : Rubric) (id : String) : ℚ :=
  match lookupCheck r id with
  | some check => check.weight
  | none => 0

/-- Helper: with globally distinct check ids, the category search of
createCheckResult finds the category a check belongs to. -/
theorem find?_category_of_mem (cats : List Category) (c : Category) (ch : Check)
    (hnd : ((cats.map (fun c => c.checks.map (fun ch => ch.id))).flatten).Nodup)
    (hc : c ∈ cats) (hch : ch ∈ c.checks) :
    cats.find? (fun cat => cat.checks.any (fun x => x.id == ch.id)) = some c := by
  induction cats with
  | nil => cases hc
  | cons c0 rest ih =>
    rw [List.map_cons, List.flatten_cons] at hnd
    obtain ⟨hnd1, hnd2, hdisj⟩ := List.nodup_append.mp hnd
    rcases List.mem_cons.mp hc with rfl | hmem
    · have hp : (c.checks.any (fun x => x.id == ch.id)) = true :=
        List.any_eq_true.mpr ⟨ch, hch, by simp⟩
      simp only [List.find?, hp]
    · have hid : ch.id
          ∈ (rest.map (fun c => c.checks.map (fun ch => ch.id))).flatten :=
        List.mem_flatten.mpr ⟨c.checks.map (fun ch => ch.id),
          List.mem_map.mpr ⟨c, hmem, rfl⟩, List.mem_map.mpr ⟨ch, hch, rfl⟩⟩
      have hp : (c0.checks.any (fun x => x.id == ch.id)) = false := by
        rw [List.any_eq_false]
        intro x hx hbeq
        have hxid : x.id = ch.id := by simpa using hbeq
        have hmem0 : ch.id ∈ c0.checks.map (fun ch => ch.id) :=
          List.mem_map.mpr ⟨x, hx, hxid⟩
        exact hdisj hmem0 hid
      simp only [List.find?, hp]
      exact ih hnd2 hmem

/-- Helper: with distinct ids inside a category, the check search of
createCheckResult finds the check itself. -/
theorem find?_check_of_mem (checks : List Check) (ch : Check)
    (hnd : (checks.map (fun c => c.id)).Nodup) (hch : ch ∈ checks) :
    checks.find? (fun x => x.id == ch.id) = some ch := by
  induction checks with
  | nil => cases hch
  | cons c0 rest ih =>
    rw [List.map_cons] at hnd
    obtain ⟨hnotin, hnd2⟩ := List.nodup_cons.mp hnd
    rcases List.mem_cons.mp hch with rfl | hmem
    · have hp : (ch.id == ch.id) = true := by simp
      simp only [List.find?, hp]
    · have hne : (c0.id == ch.id) = false := by
        refine beq_eq_false_iff_ne.mpr (fun he => hnotin ?_)
        rw [he]
        exact List.mem_map.mpr ⟨ch, hmem, rfl⟩
      simp only [List.find?, hne]
      exact ih hnd2 hmem

/-- Helper: with globally distinct check ids, lookupCheck returns the member
check itself, with its own weight. -/
theorem lookupCheck_of_mem (r : Rubric) (hnd : (rubricCheckIds r).Nodup)
    (c : Category) (hc : c ∈ r.categories) (ch : Check) (hch : ch ∈ c.checks) :
    lookupCheck r ch.id = some ch := by
  unfold lookupCheck
  unfold rubricCheckIds at hnd
  rw [find?_category_of_mem r.categories c ch hnd hc hch]
  have hndc : (c.checks.map (fun ch => ch.id)).Nodup :=
    (List.nodup_flatten.mp hnd).1 _ (List.mem_map.mpr ⟨c, hc, rfl⟩)
  simpa using find?_check_of_mem c.checks ch hndc hch

/-- Helper: a lookupCheck result is a check of some rubric category. -/
theorem lookupCheck_mem (r : Rubric) (id : String) (check : Check)
    (h : lookupCheck r id = some check) :
    ∃ c ∈ r.categories, check ∈ c.checks := by
  unfold lookupCheck at h
  cases hf : r.categories.find?
      (fun c => c.checks.any (fun ch => ch.id == id)) with
  | none => rw [hf] at h; cases h
  | some c =>
    rw [hf] at h
    simp only [Option.some_bind] at h
    exact ⟨c, List.mem_of_find?_eq_some hf, List.mem_of_find?_eq_some h⟩

/-- Helper: a result produced by createCheckResult keeps the requested id and
carries a score between 0 and the looked-up weight, when that weight is
nonnegative. -/
theorem createCheckResult_le_weight (r : Rubric) (id : String)
    (status : CheckStatus) (ev : List String) (res : CheckResult)
    (h : createCheckResult r id status ev = some res) :
    res.id = id ∧ ∃ check, lookupCheck r id = some check
      ∧ (0 ≤ check.weight → 0 ≤ res.score ∧ res.score ≤ check.weight) := by
  unfold createCheckResult at h
  cases hl : lookupCheck r id with
  | none => rw [hl] at h; cases h
  | some check =>
    rw [hl] at h
    obtain rfl := Option.some.inj h
    refine ⟨rfl, check, rfl, fun hwt => ?_⟩
    cases status
    · exact ⟨hwt, le_refl _⟩
    · constructor <;> · show (_ : ℚ) ≤ _; linarith
    · exact ⟨le_refl _, hwt⟩
    · exact ⟨le_refl _, hwt⟩

/-- C3: for every rubric with nonnegative weights and globally distinct check
ids, every valid category id and every result list with at most one result per
check id, each produced by createCheckResult, the CategoryResult returned by
computeCategoryScore satisfies 0 ≤ score ≤ max_score, and its percentage is
100 × score / max_score rounded to two decimal places, or 0 when
max_score = 0. -/
theorem computeCategoryScore_bounds (r : Rubric) (categoryId : String)
    (results : List CheckResult) (catRes : CategoryResult)
    (hw : ∀ c ∈ r.categories, ∀ ch ∈ c.checks, (0:ℚ) ≤ ch.weight)
    (hnd : (rubricCheckIds r).Nodup)
    (hres : ∀ res ∈ results, ∃ status ev,
      createCheckResult r res.id status ev = some res)
    (hids : (results.map (fun res => res.id)).Nodup)
    (hcat : computeCategoryScore r categoryId results = some catRes) :
    0 ≤ catRes.score ∧ catRes.score ≤ catRes.max_score
    ∧ catRes.percentage
      = (if 0 < catRes.max_score
        then roundTo2 (catRes.score / catRes.max_score * 100) else 0) := by
  unfold computeCategoryScore at hcat
  cases hfind : r.categories.find? (fun c => c.id == categoryId) with
  | none => rw [hfind] at hcat; cases hcat
  | some category =>
    rw [hfind] at hcat
    simp only [Option.some.injEq] at hcat
    obtain rfl := hcat
    have hcmem : category ∈ r.categories := List.mem_of_find?_eq_some hfind
    have hboth : ∀ res ∈ results.filter
        (fun res => category.checks.any (fun ch => ch.id == res.id)),
        0 ≤ res.score ∧ res.score ≤ weightOf r res.id := by
      intro res hmem
      obtain ⟨hmemres, hpred⟩ := List.mem_filter.mp hmem
      obtain ⟨status, ev, hcr⟩ := hres res hmemres
      obtain ⟨hid, check, hl, hbound⟩ :=
        createCheckResult_le_weight r res.id status ev res hcr
      obtain ⟨c, hcmem2, hchmem⟩ := lookupCheck_mem r res.id check hl
      have hb := hbound (hw c hcmem2 check hchmem)
      refine ⟨hb.1, ?_⟩
      have hwid : weightOf r res.id = check.weight := by
        unfold weightOf
        rw [hl]
      rw [hwid]
      exact hb.2
    refine ⟨?_, ?_, ?_⟩
    · refine List.sum_nonneg ?_
      intro x hx
      rcases List.mem_map.mp hx with ⟨res, hmem, rfl⟩
      exact (hboth res hmem).1
    · have h1 : ((results.filter
          (fun res => category.checks.any (fun ch => ch.id == res.id))).map
            (fun res => res.score)).sum
          ≤ ((results.filter
          (fun res => category.checks.any (fun ch => ch.id == res.id))).map
            (fun res => weightOf r res.id)).sum :=
        List.sum_le_sum (fun res hmem => (hboth res hmem).2)
      have hSub : ((results.filter
            (fun res => category.checks.any (fun ch => ch.id == res.id))).map
              (fun res => res.id)).Sublist (results.map (fun res => res.id)) :=
        (List.filter_sublist results).map _
      have hndS : ((results.filter
          (fun res => category.checks.any (fun ch => ch.id == res.id))).map
            (fun res => res.id)).Nodup := hids.sublist hSub
      have hsub2 : ∀ x ∈ (results.filter
          (fun res => category.checks.any (fun ch => ch.id == res.id))).map
            (fun res => res.id),
          x ∈ category.checks.map (fun ch => ch.id) := by
        intro x hx
        rcases List.mem_map.mp hx with ⟨res, hmem, rfl⟩
        obtain ⟨_, hpred⟩ := List.mem_filter.mp hmem
        obtain ⟨ch, hch, hbeq⟩ := List.any_eq_true.mp hpred
        have hide : ch.id = res.id := by simpa using hbeq
        exact List.mem_map.mpr ⟨ch, hch, hide⟩
      have hndcat : (category.checks.map (fun ch => ch.id)).Nodup := by
        unfold rubricCheckIds at hnd
        exact (List.nodup_flatten.mp hnd).1 _
          (List.mem_map.mpr ⟨category, hcmem, rfl⟩)
      have h2 : ((results.filter
          (fun res => category.checks.any (fun ch => ch.id == res.id))).map
            (fun res => weightOf r res.id)).sum
          ≤ (category.checks.map (fun ch => ch.weight)).sum := by
        have hrw : (results.filter
            (fun res => category.checks.any (fun ch => ch.id == res.id))).map
              (fun res => weightOf r res.id)
            = ((results.filter
            (fun res => category.checks.any (fun ch => ch.id == res.id))).map
              (fun res => res.id)).map (weightOf r) := by
          rw [List.map_map]
          rfl
        rw [hrw]
        have hfsub : ((results.filter
            (fun res => category.checks.any (fun ch => ch.id == res.id))).map
              (fun res => res.id)).toFinset
            ⊆ (category.checks.map (fun ch => ch.id)).toFinset := by
          intro x hx
          exact List.mem_toFinset.mpr (hsub2 x (List.mem_toFinset.mp hx))
        have hnonneg : ∀ x ∈ (category.checks.map (fun ch => ch.id)).toFinset,
            x ∉ ((results.filter
            (fun res => category.checks.any (fun ch => ch.id == res.id))).map
              (fun res => res.id)).toFinset → 0 ≤ weightOf r x := by
          intro x hx _
          rcases List.mem_map.mp (List.mem_toFinset.mp hx) with ⟨ch, hch, rfl⟩
          have hl := lookupCheck_of_mem r hnd category hcmem ch hch
          unfold weightOf
          rw [hl]
          exact hw category hcmem ch hch
        calc (((results.filter
            (fun res => category.checks.any (fun ch => ch.id == res.id))).map
              (fun res => res.id)).map (weightOf r)).sum
            = ∑ x ∈ ((results.filter
              (fun res => category.checks.any
                (fun ch => ch.id == res.id))).map
                (fun res => res.id)).toFinset, weightOf r x :=
              (List.sum_toFinset _ hndS).symm
          _ ≤ ∑ x ∈ (category.checks.map (fun ch => ch.id)).toFinset,
                weightOf r x :=
              Finset.sum_le_sum_of_subset_of_nonneg hfsub hnonneg
          _ = ((category.checks.map (fun ch => ch.id)).map (weightOf r)).sum :=
              List.sum_toFinset _ hndcat
          _ = (category.checks.map (fun ch => weightOf r ch.id)).sum := by
              rw [List.map_map]
              rfl
          _ = (category.checks.map (fun ch => ch.weight)).sum := by
              refine congrArg List.sum (List.map_congr_left ?_)
              intro ch hch
              have hl := lookupCheck_of_mem r hnd category hcmem ch hch
              unfold weightOf
              rw [hl]
      exact le_trans h1 h2
    · simp only [gt_iff_lt]
      split
      · rfl
      · simp [roundTo2, jsRound]

/-- Check results for the C3 witness: F1 passed (6 points), F2 failed (0). -/
def boundsWitnessResults : List CheckResult :=
  [ { id := "F1", status := CheckStatus.pass, score := 6,
      evidence := ["Page returns HTTP 200 OK"] }
  , { id := "F2", status := CheckStatus.fail, score := 0,
      evidence := ["noindex meta tag found"] } ]

/-- Category result of the C3 witness computation: 6 of 20 points, 30.00%. -/
def boundsWitnessCatRes : CategoryResult :=
  { id := "fetchability"
    label := "Fetchability"
    checks := boundsWitnessResults
    score := 6
    max_score := 20
    percentage := 30 }

/-- Witness for C3 at the concrete rubric, category and results. -/
theorem computeCategoryScore_bounds_witness :
    0 ≤ boundsWitnessCatRes.score
    ∧ boundsWitnessCatRes.score ≤ boundsWitnessCatRes.max_score
    ∧ boundsWitnessCatRes.percentage
      = (if 0 < boundsWitnessCatRes.max_score
        then roundTo2 (boundsWitnessCatRes.score
          / boundsWitnessCatRes.max_score * 100) else 0) := by
  have hres : ∀ res ∈ boundsWitnessResults, ∃ status ev,
      createCheckResult rubricV2 res.id status ev = some res := by
    intro res h
    simp only [boundsWitnessResults, List.mem_cons, List.not_mem_nil,
      or_false] at h
    rcases h with rfl | rfl
    · exact ⟨CheckStatus.pass, ["Page returns HTTP 200 OK"], by decide⟩
    · exact ⟨CheckStatus.fail, ["noindex meta tag found"], by decide⟩
  have hcat : computeCategoryScore rubricV2 "fetchability" boundsWitnessResults
      = some boundsWitnessCatRes := by
    simp only [computeCategoryScore, rubricV2, boundsWitnessResults,
      boundsWitnessCatRes, List.find?, String.reduceBEq, List.filter,
      List.any, List.map, Option.some.injEq]
    norm_num [roundTo2, jsRound]
  exact computeCategoryScore_bounds rubricV2 "fetchability"
    boundsWitnessResults boundsWitnessCatRes (by decide) (by decide) hres
    (by decide) hcat
